import Mathlib

/-!
Shallow embedding of the Relay Probe and Diagnostics Engine
(`src/lib/relay-debug.ts`) of the nostr-buzz/tools repository.

The engine's operations are asynchronous JavaScript functions driven by
WebSocket events.  We embed them as pure Lean functions of an explicit
environment describing what the network does during the operation:
when (and whether) the transport-level open event fires, whether the
WebSocket constructor throws synchronously, which frames arrive after a
publish, and what the NIP-11 metadata fetch returns.  Promise settlement
is modelled by the `OpResult` type: an operation resolves with a value,
rejects with an error message, or never settles (`hangs` — possible in
the source because the `onerror` handler of `connectToRelay` clears the
connect timeout without rejecting the promise).

Where a claim is about resource handling we instrument the embedding
with a boolean recording whether the operation called
`websocket.close()` on the session it opened before returning.
-/

namespace RelayDebug

/-- Log entry kinds, from the `RelayLog` type in `types/nostr-debug.ts`. -/
inductive LogType where
  | sent
  | received
  | error
  | info
deriving DecidableEq

/-- One entry of a connection's activity log (`RelayLog`).  The optional
opaque `data` payload is irrelevant to every claim and omitted. -/
structure RelayLog where
  timestamp : Nat
  type : LogType
  message : String
deriving DecidableEq

/-- Connection lifecycle states of `RelayConnection.status`. -/
inductive ConnStatus where
  | disconnected
  | connecting
  | connected
  | error
deriving DecidableEq

/-- The mutable connection record built by `connectToRelay`.  The
`websocket` field is `some ()` when the underlying WebSocket object is
non-null. -/
structure RelayConnection where
  url : String
  websocket : Option Unit
  status : ConnStatus
  messageCount : Nat
  errorCount : Nat
  lastActivity : Nat
  logs : List RelayLog
deriving DecidableEq

/-- What the transport does during one connection attempt.
`opensAt t`: the open event fires `t` ms after the attempt starts.
`errorAt t`: an error event fires at `t` ms, and no open event ever fires.
`silentForever`: no event ever fires; only the connect timeout acts.
`ctorThrows msg`: the WebSocket constructor throws synchronously. -/
inductive ConnectBehavior where
  | opensAt (t : Nat)
  | errorAt (t : Nat)
  | silentForever
  | ctorThrows (msg : String)
deriving DecidableEq

/-- Settlement of one `connectToRelay` promise: resolution with the
connection record and the elapsed time, rejection with an error message
and the elapsed time, or no settlement at all. -/
inductive ConnectResult where
  | ok (conn : RelayConnection) (elapsed : Nat)
  | rejected (msg : String) (elapsed : Nat)
  | hangs
deriving DecidableEq

/-- Settlement of a general asynchronous operation: resolved value,
rejection (a thrown error crossing the operation's boundary), or no
settlement. -/
inductive OpResult (α : Type) where
  | value (a : α)
  | thrown (msg : String)
  | hangs
deriving DecidableEq

/-- True when the operation settled by rejecting. -/
def OpResult.isThrown {α : Type} : OpResult α → Bool
  | .thrown _ => true
  | _ => false

/-- True when the operation settled with a value. -/
def OpResult.isValue {α : Type} : OpResult α → Bool
  | .value _ => true
  | _ => false

/-- Embedding of `connectToRelay(url, timeout)`.

The source creates the connection record, constructs a WebSocket, and
races the open event against a `timeout`-ms timer (first writer wins).
On open it marks the connection `connected`, appends an info log entry
and resolves.  If the timer fires first it closes the socket and rejects
with "Connection timeout".  If the constructor throws, it rejects with
that error.  If an error event fires before both the open event and the
timer, the handler clears the timer but rejects nothing, so the promise
never settles. -/
def connectToRelay (url : String) (timeout : Nat) (behavior : ConnectBehavior)
    (now : Nat) : ConnectResult :=
  match behavior with
  | .ctorThrows msg => ConnectResult.rejected msg 0
  | .opensAt t =>
      if t < timeout then
        ConnectResult.ok
          { url := url
            websocket := some ()
            status := ConnStatus.connected
            messageCount := 0
            errorCount := 0
            lastActivity := now + t
            logs := [{ timestamp := now + t, type := LogType.info,
                       message := "Connected to relay" }] }
          t
      else
        ConnectResult.rejected "Connection timeout" timeout
  | .errorAt t =>
      if t < timeout then ConnectResult.hangs
      else ConnectResult.rejected "Connection timeout" timeout
  | .silentForever => ConnectResult.rejected "Connection timeout" timeout

/-- Result record of `healthCheckRelay` (`RelayHealthCheck`). -/
structure RelayHealthCheck where
  url : String
  isHealthy : Bool
  latency : Nat
  supportsRead : Bool
  supportsWrite : Bool
  responseTime : Nat
  timestamp : Nat
  errorMessage : Option String
deriving DecidableEq

/-- Embedding of `healthCheckRelay(url)`, instrumented with a flag
recording whether the operation closed the WebSocket it opened before
returning.

The source connects with a 5000 ms timeout.  On success it sets
`isHealthy`, `responseTime` and `latency` from the connect round trip,
sends a read-test subscription (setting `supportsRead`), waits 1 s,
sends the CLOSE frame, assumes `supportsWrite`, and closes the socket.
Any rejection is caught and recorded in `errorMessage`. -/
def healthCheckRelay (url : String) (behavior : ConnectBehavior) (now : Nat) :
    OpResult (RelayHealthCheck × Bool) :=
  let base : RelayHealthCheck :=
    { url := url, isHealthy := false, latency := 0, supportsRead := false
      supportsWrite := false, responseTime := 0, timestamp := now
      errorMessage := none }
  match connectToRelay url 5000 behavior now with
  | .hangs => OpResult.hangs
  | .rejected msg _ =>
      OpResult.value ({ base with errorMessage := some msg }, false)
  | .ok _ elapsed =>
      OpResult.value
        ({ base with isHealthy := true, responseTime := elapsed
                     latency := elapsed, supportsRead := true
                     supportsWrite := true }, true)

/-- Embedding of `pingRelay(url)`: connects with a 5000 ms timeout,
returns the elapsed connect time on success after closing the socket,
and rethrows every failure wrapped as "Ping failed: …". -/
def pingRelay (url : String) (behavior : ConnectBehavior) (now : Nat) :
    OpResult Nat :=
  match connectToRelay url 5000 behavior now with
  | .hangs => OpResult.hangs
  | .rejected msg _ => OpResult.thrown ("Ping failed: " ++ msg)
  | .ok _ elapsed => OpResult.value elapsed

/-- A signed event as the publish path uses it: only the correlation id
matters to the engine; the remaining fields are opaque. -/
structure SignedEvent where
  id : String
deriving DecidableEq

/-- One inbound frame as seen by the publish message handler:
an acknowledgement `["OK", eventId, flag, message]` (the message slot may
be absent), some other well-formed frame, or a frame whose JSON parse
fails. -/
inductive Frame where
  | okFrame (eid : String) (flag : Bool) (msg : Option String)
  | otherFrame
  | malformed
deriving DecidableEq

/-- A frame together with its arrival time, in ms after the EVENT frame
was sent.  Frame lists are given in arrival order with nondecreasing
times. -/
structure TimedFrame where
  time : Nat
  frame : Frame
deriving DecidableEq

/-- Environment of one `publishEventToRelay` call: the transport's
connect behavior and the inbound frames that would arrive after the
EVENT frame is sent. -/
structure PublishEnv where
  connect : ConnectBehavior
  frames : List TimedFrame
deriving DecidableEq

/-- Result record of `publishEventToRelay` (`RelayPublishResult`). -/
structure RelayPublishResult where
  relay : String
  success : Bool
  eventId : String
  message : Option String
  timestamp : Nat
  latency : Nat
deriving DecidableEq

/-- The first frame of the list that the `messageHandler` accepts: a
parsed `["OK", i, flag, msg]` frame with `i` equal to the event id.
Malformed frames and non-matching frames are skipped, exactly as the
handler ignores parse errors and frames that fail its guard. -/
def findAck (eid : String) : List TimedFrame → Option (Nat × Bool × Option String)
  | [] => none
  | tf :: rest =>
      match tf.frame with
      | .okFrame i flag m => if i = eid then some (tf.time, flag, m) else findAck eid rest
      | _ => findAck eid rest

/-- JavaScript `response[3] || 'Event published'`: an absent or empty
message string falls back to the default. -/
def ackMessage : Option String → String
  | some s => if s = "" then "Event published" else s
  | none => "Event published"

/-- Embedding of `publishEventToRelay(url, event)`, instrumented with a
flag recording whether the operation closed the WebSocket it opened
before returning.

The source connects with the default 5000 ms timeout, registers a
message handler, sends the EVENT frame, and races the handler against a
10-second timer.  The first inbound frame parsing to `["OK", id, …]`
with the event's id resolves the inner promise: `success` is set from
the frame's flag, `message` from its fourth slot, `latency` from the
elapsed time; then the socket is closed.  If the timer fires first the
inner promise rejects with "Publish timeout" and control jumps to the
catch block, which records the message and the elapsed latency and
returns — without closing the socket.  A connect rejection is likewise
caught, with no socket handed to this operation. -/
def publishEventToRelayCore (url : String) (event : SignedEvent)
    (env : PublishEnv) (now : Nat) : OpResult (RelayPublishResult × Bool) :=
  let base : RelayPublishResult :=
    { relay := url, success := false, eventId := event.id, message := none
      timestamp := now, latency := 0 }
  match connectToRelay url 5000 env.connect now with
  | .hangs => OpResult.hangs
  | .rejected msg elapsed =>
      OpResult.value ({ base with message := some msg, latency := elapsed }, false)
  | .ok _ elapsed =>
      match findAck event.id env.frames with
      | some (t, flag, m) =>
          if t < 10000 then
            OpResult.value
              ({ base with success := flag, message := some (ackMessage m)
                           latency := elapsed + t }, true)
          else
            OpResult.value
              ({ base with message := some "Publish timeout"
                           latency := elapsed + 10000 }, false)
      | none =>
          OpResult.value
            ({ base with message := some "Publish timeout"
                         latency := elapsed + 10000 }, false)

/-- The public result of `publishEventToRelay`, without the close
instrumentation. -/
def publishEventToRelay (url : String) (event : SignedEvent)
    (env : PublishEnv) (now : Nat) : OpResult RelayPublishResult :=
  match publishEventToRelayCore url event env now with
  | .value (r, _) => OpResult.value r
  | .thrown m => OpResult.thrown m
  | .hangs => OpResult.hangs

/-- `Promise.all` settlement: resolves with the list of values in input
order when every promise resolves; rejects when any promise rejects;
otherwise never settles. -/
def promiseAll {α : Type} : List (OpResult α) → OpResult (List α)
  | [] => OpResult.value []
  | x :: rest =>
      match x with
      | .thrown m => OpResult.thrown m
      | .value a =>
          match promiseAll rest with
          | .thrown m => OpResult.thrown m
          | .value as => OpResult.value (a :: as)
          | .hangs => OpResult.hangs
      | .hangs =>
          match promiseAll rest with
          | .thrown m => OpResult.thrown m
          | .value _ => OpResult.hangs
          | .hangs => OpResult.hangs

/-- The per-endpoint publish promises created by
`urls.map(url => publishEventToRelay(url, event))`.  Each position gets
its own independent environment (`envs i` for the i-th session). -/
def publishPromises (event : SignedEvent) (now : Nat) :
    List String → (Nat → PublishEnv) → List (OpResult RelayPublishResult)
  | [], _ => []
  | u :: us, envs =>
      publishEventToRelay u event (envs 0) now ::
        publishPromises event now us (fun i => envs (i + 1))

/-- Embedding of `batchPublishToRelays(urls, event)`:
`Promise.all(urls.map(url => publishEventToRelay(url, event)))`. -/
def batchPublishToRelays (urls : List String) (event : SignedEvent)
    (envs : Nat → PublishEnv) (now : Nat) : OpResult (List RelayPublishResult) :=
  promiseAll (publishPromises event now urls envs)

/-- The NIP-11 document body, as the typed interface declares it: an
optional list of supported NIP numbers (software and version strings do
not influence any claim). -/
structure RelayInfoDoc where
  supported_nips : Option (List Nat)
deriving DecidableEq

/-- What the metadata fetch does: a 2xx response with a parsed document,
a non-2xx status, or a thrown network/parse error. -/
inductive FetchBehavior where
  | ok2xx (doc : RelayInfoDoc)
  | httpError (status : Nat)
  | throws (msg : String)
deriving DecidableEq

/-- Result record of `getRelayInfo` (`RelayInfo`), restricted to the
fields the engine reads. -/
structure RelayInfo where
  url : String
  status : ConnStatus
  supported_nips : Option (List Nat)
  errorMessage : Option String
deriving DecidableEq

/-- Embedding of `getRelayInfo(url)`: fetches the NIP-11 document over
HTTP; a 2xx response fills `supported_nips` and marks the info
`connected`; a non-2xx status or a thrown error is recorded in
`errorMessage` with status `error`.  It never rejects. -/
def getRelayInfo (url : String) (fetch : FetchBehavior) : RelayInfo :=
  match fetch with
  | .ok2xx doc =>
      { url := url, status := ConnStatus.connected
        supported_nips := doc.supported_nips, errorMessage := none }
  | .httpError s =>
      { url := url, status := ConnStatus.error, supported_nips := none
        errorMessage := some ("HTTP " ++ toString s) }
  | .throws msg =>
      { url := url, status := ConnStatus.error, supported_nips := none
        errorMessage := some msg }

/-- Result record of `testRelayCompliance` (`RelayTestResult`).  The
source's floating-point rate and average are modelled in ℚ. -/
structure RelayTestResult where
  url : String
  nip01Compliant : Bool
  supportsAuth : Bool
  supportsCount : Bool
  averageLatency : Rat
  successRate : Rat
  tested : Nat
deriving DecidableEq

/-- Environment of one `testRelayCompliance` call: the metadata fetch
outcome and the transport behavior of each of the sequential ping
trials (trial `i` uses `pings i`). -/
structure ComplianceEnv where
  fetch : FetchBehavior
  pings : Nat → ConnectBehavior

/-- The source's `latencies.length > 0 ? latencies.reduce((a,b) => a+b,0)
/ latencies.length : 0`. -/
def averageOf (latencies : List Nat) : Rat :=
  if latencies.length > 0 then
    ((latencies.sum : Nat) : Rat) / ((latencies.length : Nat) : Rat)
  else 0

/-- The sequential ping loop of `testRelayCompliance`: each trial's
failure is swallowed and contributes no latency sample; each success
pushes its latency.  The returned list is the `latencies` array (its
length is the source's `successCount`, incremented in the same branch). -/
def runPings (url : String) (now : Nat) : List ConnectBehavior → OpResult (List Nat)
  | [] => OpResult.value []
  | b :: rest =>
      match pingRelay url b now with
      | .hangs => OpResult.hangs
      | .thrown _ => runPings url now rest
      | .value lat =>
          match runPings url now rest with
          | .value ls => OpResult.value (lat :: ls)
          | .thrown m => OpResult.thrown m
          | .hangs => OpResult.hangs

/-- The three trial behaviors of one compliance test (`testCount = 3`). -/
def complianceTrials (env : ComplianceEnv) : List ConnectBehavior :=
  [env.pings 0, env.pings 1, env.pings 2]

/-- Embedding of `testRelayCompliance(url)`.

The source fetches the relay info; when a `supported_nips` list is
present the three capability flags come from membership of 1, 42 and 45.
It then pings the relay exactly 3 times sequentially, swallowing
failures, and sets `tested = 3`, `successRate = successCount / 3` and
`averageLatency` to the mean of the collected latencies, or 0 when none
succeeded. -/
def testRelayCompliance (url : String) (env : ComplianceEnv) (now : Nat) :
    OpResult RelayTestResult :=
  let info := getRelayInfo url env.fetch
  let nip01 := match info.supported_nips with
    | some nips => nips.contains 1
    | none => false
  let auth := match info.supported_nips with
    | some nips => nips.contains 42
    | none => false
  let count := match info.supported_nips with
    | some nips => nips.contains 45
    | none => false
  match runPings url now (complianceTrials env) with
  | .hangs => OpResult.hangs
  | .thrown m => OpResult.thrown m
  | .value latencies =>
      OpResult.value
        { url := url, nip01Compliant := nip01, supportsAuth := auth
          supportsCount := count, averageLatency := averageOf latencies
          successRate := ((latencies.length : Nat) : Rat) / 3, tested := 3 }

/-- The per-endpoint compliance promises created by
`urls.map(url => testRelayCompliance(url))`, one independent environment
per position. -/
def compliancePromises (now : Nat) :
    List String → (Nat → ComplianceEnv) → List (OpResult RelayTestResult)
  | [], _ => []
  | u :: us, envs =>
      testRelayCompliance u (envs 0) now ::
        compliancePromises now us (fun i => envs (i + 1))

/-- Embedding of `compareRelays(urls)`:
`Promise.all(urls.map(url => testRelayCompliance(url)))`. -/
def compareRelays (urls : List String) (envs : Nat → ComplianceEnv)
    (now : Nat) : OpResult (List RelayTestResult) :=
  promiseAll (compliancePromises now urls envs)

/-- Result record of `stressTestRelay`. -/
structure StressTestResult where
  url : String
  totalConnections : Nat
  successfulConnections : Nat
  failedConnections : Nat
  averageLatency : Rat
  duration : Nat
deriving DecidableEq

/-- The concurrent connection attempts of `stressTestRelay`, joined by
`Promise.all`.  Each attempt connects with a 5000 ms timeout; on success
it records the connect latency (and increments `successCount`), holds
the connection open for a bounded random interval, then closes it; any
rejection increments `failCount`.  Returns the latency samples and the
failure count. -/
def runAttempts (url : String) (now : Nat) :
    List ConnectBehavior → OpResult (List Nat × Nat)
  | [] => OpResult.value ([], 0)
  | b :: rest =>
      match connectToRelay url 5000 b now with
      | .hangs => OpResult.hangs
      | .rejected _ _ =>
          match runAttempts url now rest with
          | .value (ls, f) => OpResult.value (ls, f + 1)
          | .thrown m => OpResult.thrown m
          | .hangs => OpResult.hangs
      | .ok _ elapsed =>
          match runAttempts url now rest with
          | .value (ls, f) => OpResult.value (elapsed :: ls, f)
          | .thrown m => OpResult.thrown m
          | .hangs => OpResult.hangs

/-- Embedding of `stressTestRelay(url, connectionCount, duration)`:
launches `connectionCount` attempts (attempt `i` sees transport behavior
`attempts i`), waits for all of them, and reports the counters, the
average connect latency of the successes, and the elapsed wall-clock
time (`wallClock`; the `duration` parameter is accepted but never
bounds the attempts). -/
def stressTestRelay (url : String) (connectionCount : Nat) (_duration : Nat)
    (attempts : Nat → ConnectBehavior) (wallClock : Nat) (now : Nat) :
    OpResult StressTestResult :=
  match runAttempts url now ((List.range connectionCount).map attempts) with
  | .hangs => OpResult.hangs
  | .thrown m => OpResult.thrown m
  | .value (latencies, failCount) =>
      OpResult.value
        { url := url, totalConnections := connectionCount
          successfulConnections := latencies.length
          failedConnections := failCount
          averageLatency := averageOf latencies
          duration := wallClock }

/-- Events observable during one `monitorRelay` run, after the call
returned its cancellation handle to the caller:
`connectResolves` — the `connectToRelay` promise resolves and the `.then`
  callback runs (stores the connection, starts the 100 ms log interval,
  installs the monitor's own `onclose`/`onerror` handlers);
`appendLog l` — the connection appends a log entry (e.g. an inbound
  message);
`tick` — the 100 ms interval callback fires, splicing all pending log
  entries out of `connection.logs` and forwarding each to `onLog`;
`cancel` — the caller invokes the returned cancellation handle, which
  executes `connection?.websocket?.close()` and returns (closing a
  WebSocket only initiates the close handshake; the close event is
  delivered later);
`closeEvent` — the WebSocket close event is delivered, running the
  monitor's `onclose` handler, which clears the interval. -/
inductive MEvent where
  | connectResolves
  | appendLog (l : RelayLog)
  | tick
  | cancel
  | closeEvent
deriving DecidableEq

/-- Observable state of one `monitorRelay` run.  `onLogCalls` records
each `onLog` invocation together with whether a cancellation call had
already returned when it happened. -/
structure MonitorState where
  hasConnection : Bool
  intervalActive : Bool
  pending : List RelayLog
  onLogCalls : List (RelayLog × Bool)
  cancelReturned : Bool
deriving DecidableEq

/-- State before any event: the handle has been returned but the
connection promise has not resolved. -/
def monitorInit : MonitorState :=
  { hasConnection := false, intervalActive := false, pending := []
    onLogCalls := [], cancelReturned := false }

/-- One step of `monitorRelay` as the source behaves: the cancellation
handle the caller receives is the closure at the end of `monitorRelay`,
whose body is only `connection?.websocket?.close()` — it does not clear
the interval.  The interval is cleared only by the `onclose` handler
when the close event is later delivered. -/
def monitorStep (s : MonitorState) (e : MEvent) : MonitorState :=
  match e with
  | .connectResolves =>
      if s.hasConnection then s
      else { s with hasConnection := true, intervalActive := true }
  | .appendLog l =>
      if s.hasConnection then { s with pending := s.pending ++ [l] } else s
  | .tick =>
      if s.intervalActive && s.hasConnection && !s.pending.isEmpty then
        { s with
          onLogCalls := s.onLogCalls ++ s.pending.map (fun l => (l, s.cancelReturned)),
          pending := [] }
      else s
  | .cancel => { s with cancelReturned := true }
  | .closeEvent =>
      if s.hasConnection then { s with intervalActive := false } else s

/-- Modelled from the spec and from the dead code in the source: the
function literal returned by the `.then` callback of `monitorRelay`
(`clearInterval(checkLogs); connection?.websocket?.close();`) is the
cancellation behavior the spec describes, but that closure is returned
into the promise chain and discarded, not handed to the caller.  This
step function gives `cancel` that intended semantics: it also halts the
polling interval immediately. -/
def monitorStepIntended (s : MonitorState) (e : MEvent) : MonitorState :=
  match e with
  | .cancel => { s with cancelReturned := true, intervalActive := false }
  | _ => monitorStep s e

/-- Run of a `monitorRelay` event sequence under the source's actual
cancellation handle. -/
def runMonitor (events : List MEvent) : MonitorState :=
  events.foldl monitorStep monitorInit

/-- Run of a `monitorRelay` event sequence under the intended
cancellation handle. -/
def runMonitorIntended (events : List MEvent) : MonitorState :=
  events.foldl monitorStepIntended monitorInit

/-- Spec-side predicate: the connection attempt with the default 5000 ms
timeout resolves. -/
def connectSucceeds (url : String) (b : ConnectBehavior) (now : Nat) : Bool :=
  match connectToRelay url 5000 b now with
  | .ok _ _ => true
  | _ => false

/-- Spec-side predicate of the amended publish claim: the first
acknowledgement frame whose id matches the payload arrives before the
10-second deadline and carries a truthy flag. -/
def firstAckTruthyBeforeDeadline (eid : String) (frames : List TimedFrame) : Bool :=
  match findAck eid frames with
  | some (t, flag, _) => flag && decide (t < 10000)
  | none => false

/-- Spec-side function: the elapsed time up to the deciding event of a
publish — the connect rejection, the first matching acknowledgement
frame, or the 10-second timeout. -/
def decidingElapsed (url : String) (eid : String) (env : PublishEnv)
    (now : Nat) : Nat :=
  match connectToRelay url 5000 env.connect now with
  | .rejected _ e => e
  | .hangs => 0
  | .ok _ e =>
      match findAck eid env.frames with
      | some (t, _, _) => if t < 10000 then e + t else e + 10000
      | none => e + 10000

/-- Spec-side count: how many of the three ping trials of a compliance
test resolve. -/
def pingSuccessCount (url : String) (env : ComplianceEnv) (now : Nat) : Nat :=
  (complianceTrials env).countP (fun b => (pingRelay url b now).isValue)

/-- Spec-side list: the latencies of the successful ping trials of a
compliance test, in trial order. -/
def pingSuccessLatencies (url : String) (env : ComplianceEnv) (now : Nat) :
    List Nat :=
  (complianceTrials env).filterMap (fun b =>
    match pingRelay url b now with
    | .value l => some l
    | _ => none)

/-! ## Helper lemmas -/

theorem averageOf_nil (ls : List Nat) (h : ls.length = 0) : averageOf ls = 0 := by
  unfold averageOf
  simp [h]

theorem promiseAll_eq_value {α : Type} :
    ∀ (xs : List (OpResult α)) (ys : List α),
      promiseAll xs = OpResult.value ys → xs = ys.map OpResult.value := by
  intro xs
  induction xs with
  | nil =>
      intro ys h
      simp only [promiseAll] at h
      cases h
      rfl
  | cons x rest ih =>
      intro ys h
      simp only [promiseAll] at h
      cases x with
      | thrown m => simp at h
      | hangs => cases hr : promiseAll rest <;> rw [hr] at h <;> simp at h
      | value a =>
          cases hr : promiseAll rest with
          | thrown m => rw [hr] at h; simp at h
          | hangs => rw [hr] at h; simp at h
          | value as =>
              rw [hr] at h
              simp only [OpResult.value.injEq] at h
              subst h
              simp [ih as hr]

theorem promiseAll_not_thrown {α : Type} :
    ∀ xs : List (OpResult α), (∀ x ∈ xs, x.isThrown = false) →
      (promiseAll xs).isThrown = false := by
  intro xs
  induction xs with
  | nil => intro _; rfl
  | cons x rest ih =>
      intro hall
      have hx : x.isThrown = false := hall x (by simp)
      have hrest := ih (fun y hy => hall y (by simp [hy]))
      simp only [promiseAll]
      cases x with
      | thrown m => simp [OpResult.isThrown] at hx
      | hangs =>
          cases hr : promiseAll rest with
          | thrown m => rw [hr] at hrest; simp [OpResult.isThrown] at hrest
          | value as => rfl
          | hangs => rfl
      | value a =>
          cases hr : promiseAll rest with
          | thrown m => rw [hr] at hrest; simp [OpResult.isThrown] at hrest
          | value as => rfl
          | hangs => rfl

theorem healthCheckRelay_not_thrown (url : String) (b : ConnectBehavior)
    (now : Nat) : (healthCheckRelay url b now).isThrown = false := by
  unfold healthCheckRelay
  cases connectToRelay url 5000 b now <;> rfl

theorem publishEventToRelayCore_not_thrown (url : String) (event : SignedEvent)
    (env : PublishEnv) (now : Nat) :
    (publishEventToRelayCore url event env now).isThrown = false := by
  unfold publishEventToRelayCore
  cases connectToRelay url 5000 env.connect now with
  | hangs => rfl
  | rejected m e => rfl
  | ok conn e =>
      simp only
      cases findAck event.id env.frames with
      | none => rfl
      | some p =>
          obtain ⟨t, flag, m⟩ := p
          by_cases ht : t < 10000 <;> simp [ht, OpResult.isThrown]

theorem publishEventToRelay_not_thrown (url : String) (event : SignedEvent)
    (env : PublishEnv) (now : Nat) :
    (publishEventToRelay url event env now).isThrown = false := by
  unfold publishEventToRelay
  have h := publishEventToRelayCore_not_thrown url event env now
  cases hc : publishEventToRelayCore url event env now with
  | value p => obtain ⟨r, c⟩ := p; rfl
  | thrown m => rw [hc] at h; simp [OpResult.isThrown] at h
  | hangs => rfl

theorem runPings_not_thrown (url : String) (now : Nat) :
    ∀ bs : List ConnectBehavior, (runPings url now bs).isThrown = false := by
  intro bs
  induction bs with
  | nil => rfl
  | cons b rest ih =>
      simp only [runPings]
      cases pingRelay url b now with
      | hangs => rfl
      | thrown m => exact ih
      | value lat =>
          cases hr : runPings url now rest with
          | value ls => rfl
          | thrown m => rw [hr] at ih; simp [OpResult.isThrown] at ih
          | hangs => rfl

theorem runPings_value (url : String) (now : Nat) :
    ∀ (bs : List ConnectBehavior) (ls : List Nat),
      runPings url now bs = OpResult.value ls →
      ls = bs.filterMap (fun b =>
        match pingRelay url b now with
        | .value l => some l
        | _ => none) := by
  intro bs
  induction bs with
  | nil =>
      intro ls h
      simp only [runPings] at h
      cases h
      rfl
  | cons b rest ih =>
      intro ls h
      simp only [runPings] at h
      cases hp : pingRelay url b now with
      | hangs => rw [hp] at h; simp at h
      | thrown m =>
          rw [hp] at h
          simp [List.filterMap_cons, hp, ih ls h]
      | value lat =>
          rw [hp] at h
          cases hr : runPings url now rest with
          | thrown m => rw [hr] at h; simp at h
          | hangs => rw [hr] at h; simp at h
          | value ls2 =>
              rw [hr] at h
              simp only [OpResult.value.injEq] at h
              subst h
              simp [List.filterMap_cons, hp, ih ls2 hr]

theorem testRelayCompliance_shape (url : String) (env : ComplianceEnv)
    (now : Nat) (r : RelayTestResult)
    (h : testRelayCompliance url env now = OpResult.value r) :
    ∃ ls : List Nat,
      runPings url now (complianceTrials env) = OpResult.value ls
      ∧ r.tested = 3
      ∧ r.successRate = ((ls.length : Nat) : Rat) / 3
      ∧ r.averageLatency = averageOf ls := by
  unfold testRelayCompliance at h
  cases hr : runPings url now (complianceTrials env) with
  | hangs => rw [hr] at h; simp at h
  | thrown m => rw [hr] at h; simp at h
  | value ls =>
      rw [hr] at h
      simp only [OpResult.value.injEq] at h
      subst h
      exact ⟨ls, rfl, rfl, rfl, rfl⟩

theorem testRelayCompliance_not_thrown (url : String) (env : ComplianceEnv)
    (now : Nat) : (testRelayCompliance url env now).isThrown = false := by
  unfold testRelayCompliance
  have h := runPings_not_thrown url now (complianceTrials env)
  cases hr : runPings url now (complianceTrials env) with
  | value ls => rfl
  | thrown m => rw [hr] at h; simp [OpResult.isThrown] at h
  | hangs => rfl

theorem filterMap_ping_length (url : String) (now : Nat) :
    ∀ bs : List ConnectBehavior,
      (bs.filterMap (fun b =>
        match pingRelay url b now with
        | .value l => some l
        | _ => none)).length
      = bs.countP (fun b => (pingRelay url b now).isValue) := by
  intro bs
  induction bs with
  | nil => rfl
  | cons b rest ih =>
      cases hp : pingRelay url b now <;>
        simp [List.filterMap_cons, List.countP_cons, hp, OpResult.isValue, ih]

theorem runAttempts_not_thrown (url : String) (now : Nat) :
    ∀ bs : List ConnectBehavior, (runAttempts url now bs).isThrown = false := by
  intro bs
  induction bs with
  | nil => rfl
  | cons b rest ih =>
      simp only [runAttempts]
      cases connectToRelay url 5000 b now with
      | hangs => rfl
      | rejected m e =>
          cases hr : runAttempts url now rest with
          | value p => rfl
          | thrown m2 => rw [hr] at ih; simp [OpResult.isThrown] at ih
          | hangs => rfl
      | ok conn e =>
          cases hr : runAttempts url now rest with
          | value p => rfl
          | thrown m2 => rw [hr] at ih; simp [OpResult.isThrown] at ih
          | hangs => rfl

theorem runAttempts_value_sum (url : String) (now : Nat) :
    ∀ (bs : List ConnectBehavior) (ls : List Nat) (f : Nat),
      runAttempts url now bs = OpResult.value (ls, f) →
      ls.length + f = bs.length := by
  intro bs
  induction bs with
  | nil =>
      intro ls f h
      simp only [runAttempts] at h
      cases h
      rfl
  | cons b rest ih =>
      intro ls f h
      simp only [runAttempts] at h
      cases hc : connectToRelay url 5000 b now with
      | hangs => rw [hc] at h; simp at h
      | rejected m e =>
          rw [hc] at h
          cases hr : runAttempts url now rest with
          | thrown m2 => rw [hr] at h; simp at h
          | hangs => rw [hr] at h; simp at h
          | value p =>
              obtain ⟨ls2, f2⟩ := p
              rw [hr] at h
              simp only [OpResult.value.injEq, Prod.mk.injEq] at h
              obtain ⟨h1, h2⟩ := h
              subst h1
              subst h2
              have := ih ls2 f2 hr
              simp only [List.length_cons]
              omega
      | ok conn e =>
          rw [hc] at h
          cases hr : runAttempts url now rest with
          | thrown m2 => rw [hr] at h; simp at h
          | hangs => rw [hr] at h; simp at h
          | value p =>
              obtain ⟨ls2, f2⟩ := p
              rw [hr] at h
              simp only [OpResult.value.injEq, Prod.mk.injEq] at h
              obtain ⟨h1, h2⟩ := h
              subst h1
              subst h2
              have := ih ls2 f2 hr
              simp only [List.length_cons]
              omega

theorem stressTestRelay_shape (url : String) (n d w now : Nat)
    (attempts : Nat → ConnectBehavior) (r : StressTestResult)
    (h : stressTestRelay url n d attempts w now = OpResult.value r) :
    ∃ (ls : List Nat) (f : Nat),
      runAttempts url now ((List.range n).map attempts) = OpResult.value (ls, f)
      ∧ r.totalConnections = n
      ∧ r.successfulConnections = ls.length
      ∧ r.failedConnections = f
      ∧ r.averageLatency = averageOf ls
      ∧ r.duration = w := by
  unfold stressTestRelay at h
  cases hr : runAttempts url now ((List.range n).map attempts) with
  | hangs => rw [hr] at h; simp at h
  | thrown m => rw [hr] at h; simp at h
  | value p =>
      obtain ⟨ls, f⟩ := p
      rw [hr] at h
      simp only [OpResult.value.injEq] at h
      subst h
      exact ⟨ls, f, rfl, rfl, rfl, rfl, rfl, rfl⟩

theorem stressTestRelay_not_thrown (url : String) (n d w now : Nat)
    (attempts : Nat → ConnectBehavior) :
    (stressTestRelay url n d attempts w now).isThrown = false := by
  unfold stressTestRelay
  have h := runAttempts_not_thrown url now ((List.range n).map attempts)
  cases hr : runAttempts url now ((List.range n).map attempts) with
  | value p => obtain ⟨ls, f⟩ := p; rfl
  | thrown m => rw [hr] at h; simp [OpResult.isThrown] at h
  | hangs => rfl

theorem publishPromises_length (event : SignedEvent) (now : Nat) :
    ∀ (urls : List String) (envs : Nat → PublishEnv),
      (publishPromises event now urls envs).length = urls.length := by
  intro urls
  induction urls with
  | nil => intro envs; rfl
  | cons u us ih =>
      intro envs
      simp only [publishPromises, List.length_cons, ih]

theorem publishPromises_get (event : SignedEvent) (now : Nat) :
    ∀ (urls : List String) (envs : Nat → PublishEnv) (i : Nat)
      (hi : i < urls.length)
      (hp : i < (publishPromises event now urls envs).length),
      (publishPromises event now urls envs).get ⟨i, hp⟩
        = publishEventToRelay (urls.get ⟨i, hi⟩) event (envs i) now := by
  intro urls
  induction urls with
  | nil => intro envs i hi; simp at hi
  | cons u us ih =>
      intro envs i hi hp
      cases i with
      | zero => rfl
      | succ j =>
          have hj : j < us.length := Nat.lt_of_succ_lt_succ hi
          have hq : j < (publishPromises event now us (fun k => envs (k + 1))).length := by
            rw [publishPromises_length]; exact hj
          exact ih (fun k => envs (k + 1)) j hj hq

theorem publishPromises_not_thrown (event : SignedEvent) (now : Nat) :
    ∀ (urls : List String) (envs : Nat → PublishEnv),
      ∀ x ∈ publishPromises event now urls envs, x.isThrown = false := by
  intro urls
  induction urls with
  | nil => intro envs x hx; simp [publishPromises] at hx
  | cons u us ih =>
      intro envs x hx
      simp only [publishPromises, List.mem_cons] at hx
      cases hx with
      | inl h => rw [h]; exact publishEventToRelay_not_thrown u event (envs 0) now
      | inr h => exact ih (fun k => envs (k + 1)) x h

theorem compliancePromises_length (now : Nat) :
    ∀ (urls : List String) (envs : Nat → ComplianceEnv),
      (compliancePromises now urls envs).length = urls.length := by
  intro urls
  induction urls with
  | nil => intro envs; rfl
  | cons u us ih =>
      intro envs
      simp only [compliancePromises, List.length_cons, ih]

theorem compliancePromises_get (now : Nat) :
    ∀ (urls : List String) (envs : Nat → ComplianceEnv) (i : Nat)
      (hi : i < urls.length)
      (hp : i < (compliancePromises now urls envs).length),
      (compliancePromises now urls envs).get ⟨i, hp⟩
        = testRelayCompliance (urls.get ⟨i, hi⟩) (envs i) now := by
  intro urls
  induction urls with
  | nil => intro envs i hi; simp at hi
  | cons u us ih =>
      intro envs i hi hp
      cases i with
      | zero => rfl
      | succ j =>
          have hj : j < us.length := Nat.lt_of_succ_lt_succ hi
          have hq : j < (compliancePromises now us (fun k => envs (k + 1))).length := by
            rw [compliancePromises_length]; exact hj
          exact ih (fun k => envs (k + 1)) j hj hq

theorem compliancePromises_not_thrown (now : Nat) :
    ∀ (urls : List String) (envs : Nat → ComplianceEnv),
      ∀ x ∈ compliancePromises now urls envs, x.isThrown = false := by
  intro urls
  induction urls with
  | nil => intro envs x hx; simp [compliancePromises] at hx
  | cons u us ih =>
      intro envs x hx
      simp only [compliancePromises, List.mem_cons] at hx
      cases hx with
      | inl h => rw [h]; exact testRelayCompliance_not_thrown u (envs 0) now
      | inr h => exact ih (fun k => envs (k + 1)) x h

/-! ## Claim theorems -/

/-- Claim C1 (failing-input evaluation): the claim says every exit path
of `publishEventToRelay` and `healthCheckRelay` closes the session the
operation opened.  On a transport that opens immediately and a relay
that never sends a matching acknowledgement, `publishEventToRelay`
returns `success = false` through its catch block after the 10-second
window with the opened session still open (instrumentation flag
`false`), while `healthCheckRelay` on the same transport does close its
session before returning (flag `true`). -/
theorem publish_timeout_socket_not_closed :
    publishEventToRelayCore "wss://relay.example" { id := "abc" }
      { connect := ConnectBehavior.opensAt 0, frames := [] } 0
    = OpResult.value
        ({ relay := "wss://relay.example", success := false, eventId := "abc",
           message := some "Publish timeout", timestamp := 0, latency := 10000 },
         false)
    ∧ healthCheckRelay "wss://relay.example" (ConnectBehavior.opensAt 0) 0
      = OpResult.value
          ({ url := "wss://relay.example", isHealthy := true, latency := 0,
             supportsRead := true, supportsWrite := true, responseTime := 0,
             timestamp := 0, errorMessage := none },
           true) :=
  ⟨rfl, rfl⟩

/-- Claim C2 (counterexample): the claim states `success = true` iff an
acknowledgement frame with matching id and truthy flag arrives before
the 10-second deadline.  Here a falsy-flag matching frame arrives at
100 ms and a truthy-flag matching frame at 200 ms — both well before the
deadline — yet the result has `success = false`, because the first
matching frame resolves the publish and the handler is then removed. -/
theorem publish_ack_iff_counterexample :
    publishEventToRelay "wss://relay.example" { id := "abc" }
      { connect := ConnectBehavior.opensAt 0,
        frames := [{ time := 100, frame := Frame.okFrame "abc" false none },
                   { time := 200, frame := Frame.okFrame "abc" true (some "stored") }] } 0
    = OpResult.value
        { relay := "wss://relay.example", success := false, eventId := "abc",
          message := some "Event published", timestamp := 0, latency := 100 }
    ∧ ({ time := 200, frame := Frame.okFrame "abc" true (some "stored") } : TimedFrame)
        ∈ [({ time := 100, frame := Frame.okFrame "abc" false none } : TimedFrame),
           { time := 200, frame := Frame.okFrame "abc" true (some "stored") }]
    ∧ 200 < 10000 :=
  ⟨rfl, by simp, by norm_num⟩

/-- Claim C3 (counterexample): the claim says none of the listed public
operations propagates a rejected promise.  `pingRelay` rejects with
"Ping failed: Connection timeout" when no transport event arrives within
the connect timeout; and `healthCheckRelay` never settles at all when
the transport fires an error event before both the open event and the
timeout (the source's `onerror` handler clears the timer without
rejecting). -/
theorem ping_rejects_counterexample :
    pingRelay "wss://relay.example" ConnectBehavior.silentForever 0
      = OpResult.thrown "Ping failed: Connection timeout"
    ∧ healthCheckRelay "wss://relay.example" (ConnectBehavior.errorAt 0) 0
      = OpResult.hangs :=
  ⟨rfl, rfl⟩

/-- Claim C3 (amended): every public engine operation except `pingRelay`
never rejects — whenever it settles it resolves with a result value —
while `pingRelay` propagates any connect rejection as a rejected promise
wrapped as "Ping failed: …". -/
theorem engine_ops_no_rejection :
    (∀ (url : String) (b : ConnectBehavior) (now : Nat),
       (healthCheckRelay url b now).isThrown = false)
    ∧ (∀ (url : String) (event : SignedEvent) (env : PublishEnv) (now : Nat),
       (publishEventToRelay url event env now).isThrown = false)
    ∧ (∀ (url : String) (env : ComplianceEnv) (now : Nat),
       (testRelayCompliance url env now).isThrown = false)
    ∧ (∀ (urls : List String) (event : SignedEvent) (envs : Nat → PublishEnv)
         (now : Nat),
       (batchPublishToRelays urls event envs now).isThrown = false)
    ∧ (∀ (urls : List String) (envs : Nat → ComplianceEnv) (now : Nat),
       (compareRelays urls envs now).isThrown = false)
    ∧ (∀ (url : String) (n d w now : Nat) (attempts : Nat → ConnectBehavior),
       (stressTestRelay url n d attempts w now).isThrown = false)
    ∧ (∀ (url : String) (b : ConnectBehavior) (now : Nat) (m : String) (e : Nat),
       connectToRelay url 5000 b now = ConnectResult.rejected m e →
       pingRelay url b now = OpResult.thrown ("Ping failed: " ++ m)) := by
  refine ⟨healthCheckRelay_not_thrown, publishEventToRelay_not_thrown,
    testRelayCompliance_not_thrown, ?_, ?_, ?_, ?_⟩
  · intro urls event envs now
    exact promiseAll_not_thrown _ (publishPromises_not_thrown event now urls envs)
  · intro urls envs now
    exact promiseAll_not_thrown _ (compliancePromises_not_thrown now urls envs)
  · intro url n d w now attempts
    exact stressTestRelay_not_thrown url n d w now attempts
  · intro url b now m e hc
    unfold pingRelay
    rw [hc]

/-- Witness for the amended claim C3, at a concrete healthy endpoint and
a concrete unreachable endpoint. -/
theorem engine_ops_no_rejection_witness :
    (healthCheckRelay "wss://relay.example" (ConnectBehavior.opensAt 0) 0).isThrown = false
    ∧ pingRelay "wss://relay.example" ConnectBehavior.silentForever 0
        = OpResult.thrown ("Ping failed: " ++ "Connection timeout") :=
  ⟨engine_ops_no_rejection.1 "wss://relay.example" (ConnectBehavior.opensAt 0) 0,
   engine_ops_no_rejection.2.2.2.2.2.2 "wss://relay.example"
     ConnectBehavior.silentForever 0 "Connection timeout" 5000 rfl⟩

/-- Claim C4: for every health check that settles, the result's
`errorMessage` is set if and only if `isHealthy` is false. -/
theorem healthCheck_error_iff_unhealthy (url : String) (b : ConnectBehavior)
    (now : Nat) (r : RelayHealthCheck) (c : Bool)
    (h : healthCheckRelay url b now = OpResult.value (r, c)) :
    r.errorMessage.isSome = true ↔ r.isHealthy = false := by
  unfold healthCheckRelay at h
  cases hc : connectToRelay url 5000 b now with
  | hangs => rw [hc] at h; simp at h
  | rejected m e =>
      rw [hc] at h
      simp only [OpResult.value.injEq, Prod.mk.injEq] at h
      obtain ⟨h1, _⟩ := h
      subst h1
      simp
  | ok conn e =>
      rw [hc] at h
      simp only [OpResult.value.injEq, Prod.mk.injEq] at h
      obtain ⟨h1, _⟩ := h
      subst h1
      simp

/-- Witness for claim C4, at a concrete endpoint whose connection
attempt times out. -/
theorem healthCheck_error_iff_unhealthy_witness :
    ({ url := "wss://relay.example", isHealthy := false, latency := 0,
       supportsRead := false, supportsWrite := false, responseTime := 0,
       timestamp := 0, errorMessage := some "Connection timeout" }
       : RelayHealthCheck).errorMessage.isSome = true
    ↔ ({ url := "wss://relay.example", isHealthy := false, latency := 0,
         supportsRead := false, supportsWrite := false, responseTime := 0,
         timestamp := 0, errorMessage := some "Connection timeout" }
         : RelayHealthCheck).isHealthy = false :=
  healthCheck_error_iff_unhealthy "wss://relay.example"
    ConnectBehavior.silentForever 0 _ _ rfl

/-- Claim C5: a stress test that settles reports
`successfulConnections + failedConnections = connectionCount` and
`totalConnections = connectionCount`. -/
theorem stressTest_counts_sum (url : String) (n d w now : Nat)
    (attempts : Nat → ConnectBehavior) (r : StressTestResult)
    (h : stressTestRelay url n d attempts w now = OpResult.value r) :
    r.successfulConnections + r.failedConnections = n
    ∧ r.totalConnections = n := by
  obtain ⟨ls, f, hr, ht, hs, hf, _, _⟩ := stressTestRelay_shape url n d w now attempts r h
  have hsum := runAttempts_value_sum url now _ ls f hr
  constructor
  · rw [hs, hf]
    simpa using hsum
  · exact ht

/-- Witness for claim C5: two attempts, one connecting and one whose
constructor throws. -/
theorem stressTest_counts_sum_witness :
    ({ url := "wss://relay.example", totalConnections := 2,
       successfulConnections := 1, failedConnections := 1,
       averageLatency := ((1 : Nat) : Rat) / ((1 : Nat) : Rat),
       duration := 5 } : StressTestResult).successfulConnections
      + ({ url := "wss://relay.example", totalConnections := 2,
           successfulConnections := 1, failedConnections := 1,
           averageLatency := ((1 : Nat) : Rat) / ((1 : Nat) : Rat),
           duration := 5 } : StressTestResult).failedConnections = 2
    ∧ ({ url := "wss://relay.example", totalConnections := 2,
         successfulConnections := 1, failedConnections := 1,
         averageLatency := ((1 : Nat) : Rat) / ((1 : Nat) : Rat),
         duration := 5 } : StressTestResult).totalConnections = 2 :=
  stressTest_counts_sum "wss://relay.example" 2 1000 5 0
    (fun i => if i = 0 then ConnectBehavior.opensAt 1
              else ConnectBehavior.ctorThrows "refused") _ rfl

/-- Claim C9: whenever `connectToRelay` resolves, the returned
connection is in state `connected`, holds a non-null websocket, and its
log contains an info entry recording the connection. -/
theorem connectToRelay_success_invariant (url : String) (timeout : Nat)
    (b : ConnectBehavior) (now : Nat) (conn : RelayConnection) (e : Nat)
    (h : connectToRelay url timeout b now = ConnectResult.ok conn e) :
    conn.status = ConnStatus.connected
    ∧ conn.websocket.isSome = true
    ∧ ∃ l ∈ conn.logs, l.type = LogType.info ∧ l.message = "Connected to relay" := by
  unfold connectToRelay at h
  cases b with
  | ctorThrows m => simp at h
  | silentForever => simp at h
  | errorAt t => by_cases ht : t < timeout <;> simp [ht] at h
  | opensAt t =>
      by_cases ht : t < timeout
      · simp only [ht, if_true, ConnectResult.ok.injEq] at h
        obtain ⟨h1, _⟩ := h
        subst h1
        exact ⟨rfl, rfl,
          ⟨{ timestamp := now + t, type := LogType.info,
             message := "Connected to relay" }, by simp, rfl, rfl⟩⟩
      · simp [ht] at h

/-- Witness for claim C9, at a transport that opens after 3 ms. -/
theorem connectToRelay_success_invariant_witness :
    ({ url := "wss://relay.example", websocket := some (),
       status := ConnStatus.connected, messageCount := 0, errorCount := 0,
       lastActivity := 3,
       logs := [{ timestamp := 3, type := LogType.info,
                  message := "Connected to relay" }] }
       : RelayConnection).status = ConnStatus.connected
    ∧ ({ url := "wss://relay.example", websocket := some (),
         status := ConnStatus.connected, messageCount := 0, errorCount := 0,
         lastActivity := 3,
         logs := [{ timestamp := 3, type := LogType.info,
                    message := "Connected to relay" }] }
         : RelayConnection).websocket.isSome = true :=
  ⟨(connectToRelay_success_invariant "wss://relay.example" 5000
      (ConnectBehavior.opensAt 3) 0 _ _ rfl).1,
   (connectToRelay_success_invariant "wss://relay.example" 5000
      (ConnectBehavior.opensAt 3) 0 _ _ rfl).2.1⟩

/-- Claim C10: in both `testRelayCompliance` and `stressTestRelay`, when
no latency sample was collected the reported average latency is exactly
0 — the mean computation never divides by zero. -/
theorem no_success_average_zero :
    (∀ (url : String) (env : ComplianceEnv) (now : Nat) (r : RelayTestResult),
       testRelayCompliance url env now = OpResult.value r →
       pingSuccessCount url env now = 0 →
       r.averageLatency = 0)
    ∧ (∀ (url : String) (n d w now : Nat) (attempts : Nat → ConnectBehavior)
         (r : StressTestResult),
       stressTestRelay url n d attempts w now = OpResult.value r →
       r.successfulConnections = 0 →
       r.averageLatency = 0) := by
  constructor
  · intro url env now r h hzero
    obtain ⟨ls, hr, _, _, havg⟩ := testRelayCompliance_shape url env now r h
    have hls := runPings_value url now (complianceTrials env) ls hr
    have hlen : ls.length = 0 := by
      rw [hls, filterMap_ping_length]
      exact hzero
    rw [havg]
    exact averageOf_nil ls hlen
  · intro url n d w now attempts r h hzero
    obtain ⟨ls, f, hr, _, hs, _, havg, _⟩ := stressTestRelay_shape url n d w now attempts r h
    rw [havg]
    exact averageOf_nil ls (by rw [← hs]; exact hzero)

/-- Witness for claim C10: a compliance test whose three pings all time
out, and a one-attempt stress test whose constructor throws. -/
theorem no_success_average_zero_witness :
    ({ url := "wss://relay.example", nip01Compliant := false,
       supportsAuth := false, supportsCount := false, averageLatency := 0,
       successRate := ((0 : Nat) : Rat) / 3, tested := 3 }
       : RelayTestResult).averageLatency = 0
    ∧ ({ url := "wss://relay.example", totalConnections := 1,
         successfulConnections := 0, failedConnections := 1,
         averageLatency := 0, duration := 7 } : StressTestResult).averageLatency = 0 :=
  ⟨no_success_average_zero.1 "wss://relay.example"
     { fetch := FetchBehavior.httpError 404,
       pings := fun _ => ConnectBehavior.silentForever } 0 _ rfl rfl,
   no_success_average_zero.2 "wss://relay.example" 1 1000 7 0
     (fun _ => ConnectBehavior.ctorThrows "refused") _ rfl rfl⟩

/-- Claim C8 (failing-trace evaluation): the cancellation handle that
`monitorRelay` returns only calls `websocket.close()`; the closure that
also clears the polling interval is returned into the promise chain and
discarded.  After the connection resolves, a log entry is appended and
the handle is invoked; if the 100 ms interval then fires before the
close event is delivered, the polling is still active and `onLog` is
invoked after the cancellation call returned.  Under the intended handle
(the discarded closure, which clears the interval), the same trace
produces no such callback and halts the polling. -/
theorem monitor_cancel_handle_bug :
    (runMonitor [MEvent.connectResolves,
       MEvent.appendLog { timestamp := 0, type := LogType.received,
                          message := "Message received" },
       MEvent.cancel, MEvent.tick]).intervalActive = true
    ∧ (runMonitor [MEvent.connectResolves,
         MEvent.appendLog { timestamp := 0, type := LogType.received,
                            message := "Message received" },
         MEvent.cancel, MEvent.tick]).onLogCalls
      = [({ timestamp := 0, type := LogType.received,
            message := "Message received" }, true)]
    ∧ (runMonitorIntended [MEvent.connectResolves,
         MEvent.appendLog { timestamp := 0, type := LogType.received,
                            message := "Message received" },
         MEvent.cancel, MEvent.tick]).intervalActive = false
    ∧ (runMonitorIntended [MEvent.connectResolves,
         MEvent.appendLog { timestamp := 0, type := LogType.received,
                            message := "Message received" },
         MEvent.cancel, MEvent.tick]).onLogCalls = [] :=
  ⟨rfl, rfl, rfl, rfl⟩

/-- Claim C6: every compliance test that settles ran exactly 3 ping
trials and reports `tested = 3`, `successRate` equal to the number of
successful pings divided by 3 exactly, `0 ≤ successRate ≤ 1`, and
`averageLatency` equal to the mean of the successful latencies, or 0
when none succeeded. -/
theorem testCompliance_rate_exact (url : String) (env : ComplianceEnv)
    (now : Nat) (r : RelayTestResult)
    (h : testRelayCompliance url env now = OpResult.value r) :
    r.tested = 3
    ∧ r.successRate = ((pingSuccessCount url env now : Nat) : Rat) / 3
    ∧ 0 ≤ r.successRate
    ∧ r.successRate ≤ 1
    ∧ r.averageLatency = averageOf (pingSuccessLatencies url env now) := by
  obtain ⟨ls, hr, htested, hrate, havg⟩ := testRelayCompliance_shape url env now r h
  have hls := runPings_value url now (complianceTrials env) ls hr
  have hlen : ls.length = pingSuccessCount url env now := by
    rw [hls, filterMap_ping_length]
    rfl
  have hcount3 : pingSuccessCount url env now ≤ 3 := by
    unfold pingSuccessCount
    have h1 : (complianceTrials env).countP (fun b => (pingRelay url b now).isValue)
        ≤ (complianceTrials env).length := List.countP_le_length _
    simpa [complianceTrials] using h1
  refine ⟨htested, ?_, ?_, ?_, ?_⟩
  · rw [hrate, hlen]
  · rw [hrate]
    positivity
  · rw [hrate, hlen]
    rw [div_le_one (by norm_num : (0 : Rat) < 3)]
    exact_mod_cast hcount3
  · rw [havg, hls]
    rfl

/-- Witness for claim C6: a metadata document advertising NIPs 1 and 42
and three pings that all connect after 10 ms. -/
theorem testCompliance_rate_exact_witness :
    ({ url := "wss://relay.example", nip01Compliant := true,
       supportsAuth := true, supportsCount := false,
       averageLatency := ((30 : Nat) : Rat) / ((3 : Nat) : Rat),
       successRate := ((3 : Nat) : Rat) / 3, tested := 3 }
       : RelayTestResult).tested = 3
    ∧ ({ url := "wss://relay.example", nip01Compliant := true,
         supportsAuth := true, supportsCount := false,
         averageLatency := ((30 : Nat) : Rat) / ((3 : Nat) : Rat),
         successRate := ((3 : Nat) : Rat) / 3, tested := 3 }
         : RelayTestResult).successRate
      = ((pingSuccessCount "wss://relay.example"
            { fetch := FetchBehavior.ok2xx { supported_nips := some [1, 42] },
              pings := fun _ => ConnectBehavior.opensAt 10 } 0 : Nat) : Rat) / 3
    ∧ 0 ≤ ({ url := "wss://relay.example", nip01Compliant := true,
             supportsAuth := true, supportsCount := false,
             averageLatency := ((30 : Nat) : Rat) / ((3 : Nat) : Rat),
             successRate := ((3 : Nat) : Rat) / 3, tested := 3 }
             : RelayTestResult).successRate
    ∧ ({ url := "wss://relay.example", nip01Compliant := true,
         supportsAuth := true, supportsCount := false,
         averageLatency := ((30 : Nat) : Rat) / ((3 : Nat) : Rat),
         successRate := ((3 : Nat) : Rat) / 3, tested := 3 }
         : RelayTestResult).successRate ≤ 1
    ∧ ({ url := "wss://relay.example", nip01Compliant := true,
         supportsAuth := true, supportsCount := false,
         averageLatency := ((30 : Nat) : Rat) / ((3 : Nat) : Rat),
         successRate := ((3 : Nat) : Rat) / 3, tested := 3 }
         : RelayTestResult).averageLatency
      = averageOf (pingSuccessLatencies "wss://relay.example"
          { fetch := FetchBehavior.ok2xx { supported_nips := some [1, 42] },
            pings := fun _ => ConnectBehavior.opensAt 10 } 0) :=
  testCompliance_rate_exact "wss://relay.example"
    { fetch := FetchBehavior.ok2xx { supported_nips := some [1, 42] },
      pings := fun _ => ConnectBehavior.opensAt 10 } 0 _ rfl

/-- Claim C7: when a batch publish and a relay comparison settle they
return exactly one result per input endpoint, and the i-th returned
result is the result of the per-endpoint operation on the i-th input
endpoint under that endpoint's own independent environment — one
endpoint's failure never alters or removes another endpoint's slot. -/
theorem batch_compare_input_order (urls : List String) (event : SignedEvent)
    (envs : Nat → PublishEnv) (cenvs : Nat → ComplianceEnv) (now : Nat)
    (rs : List RelayPublishResult) (ts : List RelayTestResult)
    (hb : batchPublishToRelays urls event envs now = OpResult.value rs)
    (hc : compareRelays urls cenvs now = OpResult.value ts) :
    rs.length = urls.length
    ∧ ts.length = urls.length
    ∧ (∀ (i : Nat) (hi : i < urls.length) (hri : i < rs.length),
        publishEventToRelay (urls.get ⟨i, hi⟩) event (envs i) now
          = OpResult.value (rs.get ⟨i, hri⟩))
    ∧ (∀ (i : Nat) (hi : i < urls.length) (hti : i < ts.length),
        testRelayCompliance (urls.get ⟨i, hi⟩) (cenvs i) now
          = OpResult.value (ts.get ⟨i, hti⟩)) := by
  unfold batchPublishToRelays at hb
  unfold compareRelays at hc
  have hb2 := promiseAll_eq_value _ rs hb
  have hc2 := promiseAll_eq_value _ ts hc
  have hblen : rs.length = urls.length := by
    have hl := publishPromises_length event now urls envs
    rw [hb2] at hl
    simpa using hl
  have hclen : ts.length = urls.length := by
    have hl := compliancePromises_length now urls cenvs
    rw [hc2] at hl
    simpa using hl
  refine ⟨hblen, hclen, ?_, ?_⟩
  · intro i hi hri
    have hp : i < (publishPromises event now urls envs).length := by
      rw [publishPromises_length]
      exact hi
    have hg := publishPromises_get event now urls envs i hi hp
    have e1 : (publishPromises event now urls envs).get? i
        = some (publishEventToRelay (urls.get ⟨i, hi⟩) event (envs i) now) := by
      rw [List.get?_eq_get hp, hg]
    have e2 : (List.map OpResult.value rs).get? i
        = some (OpResult.value (rs.get ⟨i, hri⟩)) := by
      rw [List.get?_map, List.get?_eq_get hri]
      rfl
    rw [hb2, e2] at e1
    exact (Option.some_inj.mp e1).symm
  · intro i hi hti
    have hp : i < (compliancePromises now urls cenvs).length := by
      rw [compliancePromises_length]
      exact hi
    have hg := compliancePromises_get now urls cenvs i hi hp
    have e1 : (compliancePromises now urls cenvs).get? i
        = some (testRelayCompliance (urls.get ⟨i, hi⟩) (cenvs i) now) := by
      rw [List.get?_eq_get hp, hg]
    have e2 : (List.map OpResult.value ts).get? i
        = some (OpResult.value (ts.get ⟨i, hti⟩)) := by
      rw [List.get?_map, List.get?_eq_get hti]
      rfl
    rw [hc2, e2] at e1
    exact (Option.some_inj.mp e1).symm

/-- Witness for claim C7: two endpoints, the first healthy and the
second failing in both operations; the first slot still carries the
first endpoint's own result. -/
theorem batch_compare_input_order_witness :
    publishEventToRelay "wss://a" { id := "abc" }
      { connect := ConnectBehavior.opensAt 0,
        frames := [{ time := 50, frame := Frame.okFrame "abc" true (some "stored") }] } 0
      = OpResult.value
          { relay := "wss://a", success := true, eventId := "abc",
            message := some "stored", timestamp := 0, latency := 50 }
    ∧ testRelayCompliance "wss://a"
        { fetch := FetchBehavior.ok2xx { supported_nips := some [1] },
          pings := fun _ => ConnectBehavior.opensAt 10 } 0
      = OpResult.value
          { url := "wss://a", nip01Compliant := true, supportsAuth := false,
            supportsCount := false,
            averageLatency := ((30 : Nat) : Rat) / ((3 : Nat) : Rat),
            successRate := ((3 : Nat) : Rat) / 3, tested := 3 } :=
  ⟨(batch_compare_input_order ["wss://a", "wss://b"] { id := "abc" }
      (fun i => if i = 0 then
          { connect := ConnectBehavior.opensAt 0,
            frames := [{ time := 50, frame := Frame.okFrame "abc" true (some "stored") }] }
        else { connect := ConnectBehavior.ctorThrows "refused", frames := [] })
      (fun i => if i = 0 then
          { fetch := FetchBehavior.ok2xx { supported_nips := some [1] },
            pings := fun _ => ConnectBehavior.opensAt 10 }
        else { fetch := FetchBehavior.throws "network error",
               pings := fun _ => ConnectBehavior.silentForever }) 0
      [{ relay := "wss://a", success := true, eventId := "abc",
         message := some "stored", timestamp := 0, latency := 50 },
       { relay := "wss://b", success := false, eventId := "abc",
         message := some "refused", timestamp := 0, latency := 0 }]
      [{ url := "wss://a", nip01Compliant := true, supportsAuth := false,
         supportsCount := false,
         averageLatency := ((30 : Nat) : Rat) / ((3 : Nat) : Rat),
         successRate := ((3 : Nat) : Rat) / 3, tested := 3 },
       { url := "wss://b", nip01Compliant := false, supportsAuth := false,
         supportsCount := false, averageLatency := 0,
         successRate := ((0 : Nat) : Rat) / 3, tested := 3 }]
      rfl rfl).2.2.1 0 (by decide) (by decide),
   (batch_compare_input_order ["wss://a", "wss://b"] { id := "abc" }
      (fun i => if i = 0 then
          { connect := ConnectBehavior.opensAt 0,
            frames := [{ time := 50, frame := Frame.okFrame "abc" true (some "stored") }] }
        else { connect := ConnectBehavior.ctorThrows "refused", frames := [] })
      (fun i => if i = 0 then
          { fetch := FetchBehavior.ok2xx { supported_nips := some [1] },
            pings := fun _ => ConnectBehavior.opensAt 10 }
        else { fetch := FetchBehavior.throws "network error",
               pings := fun _ => ConnectBehavior.silentForever }) 0
      [{ relay := "wss://a", success := true, eventId := "abc",
         message := some "stored", timestamp := 0, latency := 50 },
       { relay := "wss://b", success := false, eventId := "abc",
         message := some "refused", timestamp := 0, latency := 0 }]
      [{ url := "wss://a", nip01Compliant := true, supportsAuth := false,
         supportsCount := false,
         averageLatency := ((30 : Nat) : Rat) / ((3 : Nat) : Rat),
         successRate := ((3 : Nat) : Rat) / 3, tested := 3 },
       { url := "wss://b", nip01Compliant := false, supportsAuth := false,
         supportsCount := false, averageLatency := 0,
         successRate := ((0 : Nat) : Rat) / 3, tested := 3 }]
      rfl rfl).2.2.2 0 (by decide) (by decide)⟩

/-- Claim C2 (amended): for every publish that settles, `success` is
true iff the session connected and the first acknowledgement frame with
matching id arrived before the 10-second deadline carrying a truthy
flag; and the returned latency is the elapsed time up to the deciding
event — connect rejection, first matching frame, or timeout. -/
theorem publish_ack_characterization (url : String) (event : SignedEvent)
    (env : PublishEnv) (now : Nat) (r : RelayPublishResult)
    (h : publishEventToRelay url event env now = OpResult.value r) :
    r.success = (connectSucceeds url env.connect now
        && firstAckTruthyBeforeDeadline event.id env.frames)
    ∧ r.latency = decidingElapsed url event.id env now := by
  unfold publishEventToRelay publishEventToRelayCore at h
  unfold connectSucceeds firstAckTruthyBeforeDeadline decidingElapsed
  cases hcon : connectToRelay url 5000 env.connect now with
  | hangs => rw [hcon] at h; simp at h
  | rejected m e =>
      rw [hcon] at h
      simp only [OpResult.value.injEq] at h
      subst h
      simp
  | ok conn e =>
      rw [hcon] at h
      cases hack : findAck event.id env.frames with
      | none =>
          rw [hack] at h
          simp only [OpResult.value.injEq] at h
          subst h
          simp
      | some p =>
          obtain ⟨t, flag, m⟩ := p
          rw [hack] at h
          by_cases ht : t < 10000
          · simp only [ht, if_true, OpResult.value.injEq] at h
            subst h
            simp [ht]
          · simp only [ht, if_false, OpResult.value.injEq] at h
            subst h
            simp [ht]

/-- Witness for the amended claim C2: a session that opens immediately
and a relay that acknowledges the event with a truthy flag at 200 ms. -/
theorem publish_ack_characterization_witness :
    ({ relay := "wss://relay.example", success := true, eventId := "abc",
       message := some "stored", timestamp := 0, latency := 200 }
       : RelayPublishResult).success
      = (connectSucceeds "wss://relay.example" (ConnectBehavior.opensAt 0) 0
          && firstAckTruthyBeforeDeadline "abc"
               [{ time := 200, frame := Frame.okFrame "abc" true (some "stored") }])
    ∧ ({ relay := "wss://relay.example", success := true, eventId := "abc",
         message := some "stored", timestamp := 0, latency := 200 }
         : RelayPublishResult).latency
      = decidingElapsed "wss://relay.example" "abc"
          { connect := ConnectBehavior.opensAt 0,
            frames := [{ time := 200,
                         frame := Frame.okFrame "abc" true (some "stored") }] } 0 :=
  publish_ack_characterization "wss://relay.example" { id := "abc" }
    { connect := ConnectBehavior.opensAt 0,
      frames := [{ time := 200,
                   frame := Frame.okFrame "abc" true (some "stored") }] } 0 _ rfl

end RelayDebug
